import Mathlib

/-!
Shallow embedding of the gb-rust Game Boy emulator core (src/main.rs).

Modelling conventions:
* Rust `u8`/`u16`/`u64` values are Lean `Nat`s; 16-bit address arithmetic
  that can overflow (`addr + 1`, `pc += 1`) is taken modulo 2^16, matching
  Rust wrapping semantics for machine integers.
* Fixed byte arrays (`[u8; N]`) and borrowed slices (`&[u8]`) are modelled
  as functions `Nat -> Nat`; every index expression the source performs is
  in bounds for its region, so the function view hides no behaviour.
* Rust panics (`panic!`, `todo!`, slice-out-of-range) become `Except.error`
  values of the inductive `Panic`, one constructor per panic site of the
  source.  Operations that mutate state before a later panic can occur
  return the panic together with the state at the moment of the panic
  (`Except (Panic × GB) GB`), so that "state at the fault" is expressible.
-/

/-- One constructor per panic site in src/main.rs. -/
inductive Panic where
  /-- `panic!("Trying to read non-existent memory")` in `MMU::rb`. -/
  | readNonexistent : Panic
  /-- `panic!("Trying to write to non-writable memory - bios / bank 0")` in `MMU::wb`. -/
  | writeBiosBank0 : Panic
  /-- `panic!("Trying to write to non-writable memory - bank 0")` in `MMU::wb`. -/
  | writeBank0 : Panic
  /-- `panic!("Trying to write to non-writable memory - loaded bank")` in `MMU::wb`. -/
  | writeLoadedBank : Panic
  /-- `panic!("Trying to write non-existent memory")` in `MMU::wb`. -/
  | writeNonexistent : Panic
  /-- `todo!("Instruction not implemented")` in `GB::run_instr`. -/
  | unimplementedInstr : Panic
  /-- The slice `&rom_data[0..16384]` in `GB::new` / `GB::load_rom` panics
      when the image is shorter than 16384 bytes. -/
  | sliceOutOfRange : Panic
deriving DecidableEq

/-- The spec's error taxonomy calls every write-to-ROM panic a
`ReadOnlyViolation`; these are the three such panic sites. -/
def Panic.isReadOnlyViolation : Panic → Bool
  | .writeBiosBank0 => true
  | .writeBank0 => true
  | .writeLoadedBank => true
  | _ => false

/-- The spec's error taxonomy calls both 0xFEA0-0xFEFF panics an
`UnmappedAccess`. -/
def Panic.isUnmappedAccess : Panic → Bool
  | .readNonexistent => true
  | .writeNonexistent => true
  | _ => false

/-- The `MMU` struct of src/main.rs: the boot flag plus the backing
regions.  `io` is renamed `ioRegs`. -/
structure MMU where
  booted : Bool
  bios : Nat → Nat
  bank0 : Nat → Nat
  loaded_bank : Nat → Nat
  graphics : Nat → Nat
  external_ram : Nat → Nat
  ram : Nat → Nat
  sprites : Nat → Nat
  ioRegs : Nat → Nat
  work_ram : Nat → Nat

/-- `impl Default for MMU`: `booted: false`, all regions zero-filled. -/
def MMU.default : MMU where
  booted := false
  bios := fun _ => 0
  bank0 := fun _ => 0
  loaded_bank := fun _ => 0
  graphics := fun _ => 0
  external_ram := fun _ => 0
  ram := fun _ => 0
  sprites := fun _ => 0
  ioRegs := fun _ => 0
  work_ram := fun _ => 0

/-- Pointwise update of a region, modelling `arr[i] = val`. -/
def updFn (f : Nat → Nat) (i v : Nat) : Nat → Nat :=
  fun j => if j = i then v else f j

/-- `MMU::rb`: read one byte.  The source matches on the `u16` address, so
addresses are meaningful for `addr < 65536`; the last arm of the source
match (`0xff80..=0xffff`) is the final `else`. -/
def MMU.rb (m : MMU) (addr : Nat) : Except Panic Nat :=
  if addr ≤ 0xff then
    if m.booted then .ok (m.bank0 (addr - 0x000)) else .ok (m.bios (addr - 0x000))
  else if addr ≤ 0x3fff then .ok (m.bank0 (addr - 0x000))
  else if addr ≤ 0x7fff then .ok (m.loaded_bank (addr - 0x4000))
  else if addr ≤ 0x9fff then .ok (m.graphics (addr - 0x8000))
  else if addr ≤ 0xbfff then .ok (m.external_ram (addr - 0xa000))
  else if addr ≤ 0xfdff then .ok (m.ram (addr % 8192))
  else if addr ≤ 0xfe9f then .ok (m.sprites (addr - 0xfe00))
  else if addr ≤ 0xfeff then .error .readNonexistent
  else if addr ≤ 0xff7f then .ok (m.ioRegs (addr - 0xff00))
  else .ok (m.work_ram (addr - 0xff80))

/-- `MMU::r2b`: `(rb(addr) << 8) | rb(addr + 1)`; the `u16` addition
`addr + 1` wraps modulo 2^16. -/
def MMU.r2b (m : MMU) (addr : Nat) : Except Panic Nat :=
  match m.rb addr with
  | .error p => .error p
  | .ok head =>
    match m.rb ((addr + 1) % 65536) with
    | .error p => .error p
    | .ok tail => .ok ((head <<< 8) ||| tail)

/-- `MMU::wb`: write one byte; every panic arm panics before any
mutation, so an `error` result means the MMU is unchanged. -/
def MMU.wb (m : MMU) (addr val : Nat) : Except Panic MMU :=
  if addr ≤ 0xff then .error .writeBiosBank0
  else if addr ≤ 0x3fff then .error .writeBank0
  else if addr ≤ 0x7fff then .error .writeLoadedBank
  else if addr ≤ 0x9fff then .ok { m with graphics := updFn m.graphics (addr - 0x8000) val }
  else if addr ≤ 0xbfff then .ok { m with external_ram := updFn m.external_ram (addr - 0xa000) val }
  else if addr ≤ 0xfdff then .ok { m with ram := updFn m.ram (addr % 8192) val }
  else if addr ≤ 0xfe9f then .ok { m with sprites := updFn m.sprites (addr - 0xfe00) val }
  else if addr ≤ 0xfeff then .error .writeNonexistent
  else if addr ≤ 0xff7f then .ok { m with ioRegs := updFn m.ioRegs (addr - 0xff00) val }
  else .ok { m with work_ram := updFn m.work_ram (addr - 0xff80) val }

/-- The `Z80` struct: last-instruction clocks `m`/`t`, the eight 8-bit
registers, the flag byte `f`, and the 16-bit `pc` and `sp`. -/
structure Z80 where
  m : Nat
  t : Nat
  b : Nat
  a : Nat
  c : Nat
  d : Nat
  e : Nat
  h : Nat
  l : Nat
  f : Nat
  pc : Nat
  sp : Nat

/-- `#[derive(Default)]` for `Z80`: all-zero state. -/
def Z80.default : Z80 where
  m := 0
  t := 0
  b := 0
  a := 0
  c := 0
  d := 0
  e := 0
  h := 0
  l := 0
  f := 0
  pc := 0
  sp := 0

/-- The `GB` struct: CPU, MMU, the two running 64-bit totals, and the
owned cartridge image. -/
structure GB where
  z80 : Z80
  mmu : MMU
  clockM : Nat
  clockT : Nat
  rom_data : List Nat

/-- `GB::new`: default CPU/MMU/clocks, then `mmu.bank0 = &rom_data[0..16384]`.
The slice panics when the image holds fewer than 16384 bytes. -/
def GB.new (rom_data : List Nat) : Except Panic GB :=
  if rom_data.length < 16384 then .error .sliceOutOfRange
  else .ok
    { z80 := Z80.default
      mmu := { MMU.default with bank0 := fun i => (rom_data.take 16384).getD i 0 }
      clockM := 0
      clockT := 0
      rom_data := rom_data }

/-- `GB::load_rom`: replace the image and re-slice bank 0. -/
def GB.load_rom (g : GB) (rom_data : List Nat) : Except Panic GB :=
  if rom_data.length < 16384 then .error .sliceOutOfRange
  else .ok
    { g with
      rom_data := rom_data
      mmu := { g.mmu with bank0 := fun i => (rom_data.take 16384).getD i 0 } }

/-- `GB::run_instr`: dispatch on the opcode byte.  Opcode 0x00 sets
`m=1, t=4`; opcode 0x01 reads `c` from `pc` and `b` from `pc+1` then sets
`m=3, t=12`; any other opcode hits `todo!`.  After the match, `pc += 1`
(wrapping).  An error carries the `GB` state at the moment of the panic. -/
def GB.run_instr (g : GB) (instr : Nat) : Except (Panic × GB) GB :=
  match instr with
  | 0 =>
    .ok { g with z80 := { g.z80 with m := 1, t := 4, pc := (g.z80.pc + 1) % 65536 } }
  | 1 =>
    match g.mmu.rb g.z80.pc with
    | .error p => .error (p, g)
    | .ok cv =>
      match g.mmu.rb ((g.z80.pc + 1) % 65536) with
      | .error p => .error (p, { g with z80 := { g.z80 with c := cv } })
      | .ok bv =>
        .ok { g with z80 :=
          { g.z80 with c := cv, b := bv, m := 3, t := 12, pc := (g.z80.pc + 1) % 65536 } }
  | _ => .error (.unimplementedInstr, g)

/-- `GB::cycle`: fetch the opcode at `pc`, run it, then add the
last-instruction clocks to the running totals. -/
def GB.cycle (g : GB) : Except (Panic × GB) GB :=
  match g.mmu.rb g.z80.pc with
  | .error p => .error (p, g)
  | .ok instr =>
    match g.run_instr instr with
    | .error e => .error e
    | .ok g1 => .ok { g1 with clockM := g1.clockM + g1.z80.m, clockT := g1.clockT + g1.z80.t }

/-- The length validation `main` performs on the loaded file before
constructing `GB`: `rom_data_result.is_ok_and(|r| r.len() > 0x014f)`. -/
def mainAccepts (rom_data : List Nat) : Bool :=
  decide (0x014f < rom_data.length)

/-- States reachable from harness construction by the operations of the
source: `cycle`, `run_instr`, `load_rom`, and direct MMU writes (reads do
not change state).  Both the normal result and the state at a panic are
reachable. -/
inductive Reachable : GB → Prop where
  | new (rom_data : List Nat) (g : GB) : GB.new rom_data = .ok g → Reachable g
  | cycle_ok (g g' : GB) : Reachable g → g.cycle = .ok g' → Reachable g'
  | cycle_err (g : GB) (p : Panic) (g' : GB) : Reachable g → g.cycle = .error (p, g') → Reachable g'
  | run_ok (g : GB) (i : Nat) (g' : GB) : Reachable g → g.run_instr i = .ok g' → Reachable g'
  | run_err (g : GB) (i : Nat) (p : Panic) (g' : GB) :
      Reachable g → g.run_instr i = .error (p, g') → Reachable g'
  | load (g : GB) (rom_data : List Nat) (g' : GB) :
      Reachable g → g.load_rom rom_data = .ok g' → Reachable g'
  | write (g : GB) (addr val : Nat) (m' : MMU) :
      Reachable g → g.mmu.wb addr val = .ok m' → Reachable { g with mmu := m' }

/-! ### Helper lemmas about the address router -/

/-- Reads in 0xC000-0xFDFF hit `ram` at index `addr % 8192`. -/
theorem MMU.rb_ram (m : MMU) (a : Nat) (h1 : 0xc000 ≤ a) (h2 : a ≤ 0xfdff) :
    m.rb a = .ok (m.ram (a % 8192)) := by
  unfold MMU.rb
  repeat rw [if_neg (by omega)]
  rw [if_pos (by omega)]

/-- Writes in 0xC000-0xFDFF update `ram` at index `addr % 8192`. -/
theorem MMU.wb_ram (m : MMU) (a v : Nat) (h1 : 0xc000 ≤ a) (h2 : a ≤ 0xfdff) :
    m.wb a v = .ok { m with ram := updFn m.ram (a % 8192) v } := by
  unfold MMU.wb
  repeat rw [if_neg (by omega)]
  rw [if_pos (by omega)]

/-- While `booted` is false, reads in 0x0000-0x00FF hit the bios. -/
theorem MMU.rb_low (m : MMU) (a : Nat) (hb : m.booted = false) (ha : a ≤ 0xff) :
    m.rb a = .ok (m.bios a) := by
  unfold MMU.rb
  rw [if_pos ha, hb]
  simp

/-! ### C4-C7: address-router claims -/

/-- C4: for every address `a` in 0xC000-0xFDFF and any MMU state (hence
after any sequence of writes), `read a` equals `read (0xC000 + (a - 0xC000) % 8192)`;
moreover a write at `a` is observed by a read at the mirrored address. -/
theorem c4_workram_mirror (m : MMU) (a v : Nat) (h1 : 0xc000 ≤ a) (h2 : a ≤ 0xfdff) :
    m.rb a = m.rb (0xc000 + (a - 0xc000) % 8192) ∧
    ∃ m', m.wb a v = .ok m' ∧ m'.rb (0xc000 + (a - 0xc000) % 8192) = .ok v := by
  have hmod : (0xc000 + (a - 0xc000) % 8192) % 8192 = a % 8192 := by omega
  constructor
  · rw [MMU.rb_ram m a h1 h2, MMU.rb_ram m _ (by omega) (by omega), hmod]
  · refine ⟨{ m with ram := updFn m.ram (a % 8192) v }, MMU.wb_ram m a v h1 h2, ?_⟩
    rw [MMU.rb_ram _ _ (by omega) (by omega), hmod]
    simp [updFn]

/-- C4 witness: the mirror pair 0xE000 / 0xC000 on the default MMU. -/
theorem c4_workram_mirror_witness :
    MMU.default.rb 0xe000 = MMU.default.rb (0xc000 + (0xe000 - 0xc000) % 8192) ∧
    ∃ m', MMU.default.wb 0xe000 7 = .ok m' ∧
      m'.rb (0xc000 + (0xe000 - 0xc000) % 8192) = .ok 7 :=
  c4_workram_mirror MMU.default 0xe000 7 (by decide) (by decide)

/-- C5: `read 0x0050` returns the boot-firmware byte at offset 0x50 exactly
when the boot overlay is active (`booted = false`), and the cartridge
bank-0 byte at offset 0x50 once it is inactive (`booted = true`), whatever
the two bytes are — in particular also when they differ. -/
theorem c5_boot_overlay_read (m : MMU) :
    m.rb 0x50 = .ok (if m.booted then m.bank0 0x50 else m.bios 0x50) := by
  cases hb : m.booted <;> simp [MMU.rb, hb]

/-- C6: every write in 0x0000-0x7FFF fails with one of the read-only-region
panics (the spec's `ReadOnlyViolation`), for every MMU state — in
particular for both values of the boot flag; `wb` panics before mutating,
so the backing storage is unchanged. -/
theorem c6_rom_write_readonly (m : MMU) (a v : Nat) (h : a ≤ 0x7fff) :
    ∃ p, m.wb a v = .error p ∧ p.isReadOnlyViolation = true := by
  unfold MMU.wb
  by_cases h1 : a ≤ 0xff
  · exact ⟨.writeBiosBank0, by rw [if_pos h1], rfl⟩
  · by_cases h2 : a ≤ 0x3fff
    · exact ⟨.writeBank0, by rw [if_neg h1, if_pos h2], rfl⟩
    · exact ⟨.writeLoadedBank, by rw [if_neg h1, if_neg h2, if_pos (by omega)], rfl⟩

/-- C6 witness: writing 0 to address 0 on the default MMU. -/
theorem c6_rom_write_readonly_witness :
    ∃ p, MMU.default.wb 0 0 = .error p ∧ p.isReadOnlyViolation = true :=
  c6_rom_write_readonly MMU.default 0 0 (by decide)

/-- C7: in 0xFEA0-0xFEFF both read and write fail with the non-existent
memory panics (the spec's `UnmappedAccess`), for every MMU state and value. -/
theorem c7_unmapped_access (m : MMU) (a v : Nat) (h1 : 0xfea0 ≤ a) (h2 : a ≤ 0xfeff) :
    (m.rb a = .error .readNonexistent ∧ Panic.readNonexistent.isUnmappedAccess = true) ∧
    (m.wb a v = .error .writeNonexistent ∧ Panic.writeNonexistent.isUnmappedAccess = true) := by
  refine ⟨⟨?_, rfl⟩, ?_, rfl⟩
  · unfold MMU.rb
    repeat rw [if_neg (by omega)]
    rw [if_pos (by omega)]
  · unfold MMU.wb
    repeat rw [if_neg (by omega)]
    rw [if_pos (by omega)]

/-- C7 witness: address 0xFEA0, value 1, default MMU. -/
theorem c7_unmapped_access_witness :
    (MMU.default.rb 0xfea0 = .error .readNonexistent ∧
      Panic.readNonexistent.isUnmappedAccess = true) ∧
    (MMU.default.wb 0xfea0 1 = .error .writeNonexistent ∧
      Panic.writeNonexistent.isUnmappedAccess = true) :=
  c7_unmapped_access MMU.default 0xfea0 1 (by decide) (by decide)

/-! ### Concrete states used by witnesses and evaluations -/

/-- The harness state `GB::new` builds from an all-zero 16 KiB image. -/
def gbInit : GB where
  z80 := Z80.default
  mmu := { MMU.default with bank0 := fun i => ((List.replicate 16384 0).take 16384).getD i 0 }
  clockM := 0
  clockT := 0
  rom_data := List.replicate 16384 0

/-- `GB::new` on an all-zero 16 KiB image succeeds and yields `gbInit`. -/
theorem gb_new_replicate : GB.new (List.replicate 16384 0) = .ok gbInit := by
  unfold GB.new gbInit
  rw [if_neg (by simp only [List.length_replicate]; omega)]

/-! ### C8-C9: NOP timing and 16-bit read composition -/

/-- C8: from any state whose fetch at `pc` yields opcode 0x00, one harness
cycle sets the last-instruction cost to (1, 4), advances `pc` by exactly 1
(mod 2^16), adds exactly 1 and 4 to the running machine/clock totals, and
leaves every other register and all memory unchanged. -/
theorem c8_nop_step (g : GB) (h : g.mmu.rb g.z80.pc = .ok 0) :
    g.cycle = .ok { g with
      z80 := { g.z80 with m := 1, t := 4, pc := (g.z80.pc + 1) % 65536 },
      clockM := g.clockM + 1,
      clockT := g.clockT + 4 } := by
  unfold GB.cycle
  rw [h]
  rfl

/-- C8 witness: the initial state fetches 0x00 (zeroed bios) at pc 0. -/
theorem c8_nop_step_witness :
    gbInit.cycle = .ok { gbInit with
      z80 := { gbInit.z80 with m := 1, t := 4, pc := (gbInit.z80.pc + 1) % 65536 },
      clockM := gbInit.clockM + 1,
      clockT := gbInit.clockT + 4 } :=
  c8_nop_step gbInit (by rfl)

/-- C9: whenever the two single-byte reads succeed, `r2b addr` is their
big-endian composition `(rb addr <<< 8) ||| rb (addr + 1)`, the `u16`
successor address taken modulo 2^16 — so at `addr = 0xFFFF` the second
read wraps to address 0x0000. -/
theorem c9_read16_bigendian (m : MMU) (a hd tl : Nat)
    (h1 : m.rb a = .ok hd) (h2 : m.rb ((a + 1) % 65536) = .ok tl) :
    m.r2b a = .ok ((hd <<< 8) ||| tl) := by
  unfold MMU.r2b
  rw [h1, h2]

/-- C9 witness: the wrap-around case `addr = 0xFFFF` on the default MMU. -/
theorem c9_read16_bigendian_witness :
    MMU.default.r2b 0xffff = .ok ((0 <<< 8) ||| 0) :=
  c9_read16_bigendian MMU.default 0xffff 0 0 (by rfl) (by rfl)

/-! ### C1-C2: the LD BC,d16 slip and cartridge-size handling -/

/-- A state with the encoding `[0x01, 0x34, 0x12]` of LD BC,0x1234 in
cartridge bank 0 at the current pc = 0x0100. -/
def c1state : GB where
  z80 := { Z80.default with pc := 0x100 }
  mmu := { MMU.default with bank0 := fun i =>
    if i = 0x100 then 0x01 else if i = 0x101 then 0x34 else if i = 0x102 then 0x12 else 0 }
  clockM := 0
  clockT := 0
  rom_data := []

/-- C1: evaluating one cycle on `[0x01, 0x34, 0x12]` at pc = 0x0100 shows
the code loading `c` with 0x01 — the opcode byte itself — and `b` with
0x34, then advancing pc by exactly 1 (to 0x0101), while still charging
(3, 12) cycles: the operand reads are off by one and the pc advance
ignores the two immediate bytes the instruction encodes. -/
theorem c1_ld_bc_eval :
    c1state.cycle = .ok { c1state with
      z80 := { c1state.z80 with c := 0x01, b := 0x34, m := 3, t := 12, pc := 0x101 },
      clockM := 3,
      clockT := 12 } := by
  rfl

/-- C2: `main`'s own length assertion (`len > 0x014f`) accepts an image of
exactly 0x0150 bytes, yet `GB::new` panics on it when slicing
`rom_data[0..16384]`; construction only succeeds from 16384 bytes up —
there is no 0x0150 threshold and no dedicated too-small error in the
construction path. -/
theorem c2_cartridge_size_eval :
    mainAccepts (List.replicate 0x150 0) = true ∧
    GB.new (List.replicate 0x150 0) = .error .sliceOutOfRange ∧
    GB.new (List.replicate 16384 0) = .ok gbInit := by
  refine ⟨?_, ?_, gb_new_replicate⟩
  · simp only [mainAccepts, List.length_replicate]
    decide
  · unfold GB.new
    rw [if_pos (by simp only [List.length_replicate]; omega)]

/-! ### C3: unimplemented opcodes -/

/-- A state that fetches opcode 0x02 at pc = 0. -/
def c3stA : GB where
  z80 := Z80.default
  mmu := { MMU.default with bios := fun i => if i = 0 then 2 else 0 }
  clockM := 0
  clockT := 0
  rom_data := []

/-- A state that fetches opcode 0x03 at pc = 5. -/
def c3stB : GB where
  z80 := { Z80.default with pc := 5 }
  mmu := { MMU.default with bios := fun i => if i = 5 then 3 else 0 }
  clockM := 0
  clockT := 0
  rom_data := []

/-- C3 (amended): for every fetched opcode byte other than 0x00 and 0x01,
one harness cycle fails with the `todo!` panic and the state at the fault
is exactly the state before the fetch — registers, flags, pc, sp, cycle
counters, running totals and all memory unchanged. -/
theorem c3_unimplemented_state_unchanged (g : GB) (op : Nat)
    (h : g.mmu.rb g.z80.pc = .ok op) (h0 : op ≠ 0) (h1 : op ≠ 1) :
    g.cycle = .error (.unimplementedInstr, g) := by
  rcases op with _ | _ | n
  · exact absurd rfl h0
  · exact absurd rfl h1
  · unfold GB.cycle
    rw [h]
    rfl

/-- C3 witness: a concrete cycle on opcode 0x02 at pc = 0. -/
theorem c3_unimplemented_witness :
    c3stA.cycle = .error (.unimplementedInstr, c3stA) :=
  c3_unimplemented_state_unchanged c3stA 2 (by rfl) (by decide) (by decide)

/-- C3 counterexample to "carrying the exact opcode value and the pc at
fault": fetching opcode 0x02 at pc 0 and opcode 0x03 at pc 5 raise the
one and the same panic value — `Panic.unimplementedInstr`, the payloadless
image of `todo!("Instruction not implemented")` — so the raised error
determines neither the opcode nor the pc. -/
theorem c3_panic_payload_counterexample :
    c3stA.cycle = .error (.unimplementedInstr, c3stA) ∧
    c3stB.cycle = .error (.unimplementedInstr, c3stB) ∧
    c3stA.mmu.rb c3stA.z80.pc = .ok 2 ∧
    c3stB.mmu.rb c3stB.z80.pc = .ok 3 ∧
    c3stA.z80.pc ≠ c3stB.z80.pc := by
  exact ⟨rfl, rfl, rfl, rfl, by decide⟩

/-! ### C10: the boot flag is never flipped -/

/-- `MMU::wb` never touches the boot flag. -/
theorem MMU.wb_booted (m : MMU) (a v : Nat) (m' : MMU) (h : m.wb a v = .ok m') :
    m'.booted = m.booted := by
  unfold MMU.wb at h
  repeat' split at h
  all_goals first
  | (injection h with h2; subst h2; rfl)
  | (injection h)

/-- A successful `run_instr` leaves the MMU untouched. -/
theorem GB.run_instr_mmu_ok (g : GB) (i : Nat) (g' : GB) (h : g.run_instr i = .ok g') :
    g'.mmu = g.mmu := by
  unfold GB.run_instr at h
  repeat' split at h
  all_goals first
  | (injection h with h2; subst h2; rfl)
  | (injection h)

/-- A panicking `run_instr` leaves the MMU untouched in the state at the
fault. -/
theorem GB.run_instr_mmu_err (g : GB) (i : Nat) (p : Panic) (g' : GB)
    (h : g.run_instr i = .error (p, g')) : g'.mmu = g.mmu := by
  unfold GB.run_instr at h
  repeat' split at h
  all_goals first
  | (injection h with h2; injection h2 with h3 h4; subst h4; rfl)
  | (injection h)

/-- A successful `cycle` leaves the MMU untouched. -/
theorem GB.cycle_mmu_ok (g g' : GB) (h : g.cycle = .ok g') : g'.mmu = g.mmu := by
  unfold GB.cycle at h
  repeat' split at h
  all_goals first
  | (injection h with h2; subst h2; rename_i heq; dsimp only;
     exact (GB.run_instr_mmu_ok _ _ _ heq))
  | (injection h)

/-- A panicking `cycle` leaves the MMU untouched in the state at the
fault. -/
theorem GB.cycle_mmu_err (g : GB) (p : Panic) (g' : GB) (h : g.cycle = .error (p, g')) :
    g'.mmu = g.mmu := by
  unfold GB.cycle at h
  repeat' split at h
  all_goals first
  | (injection h with h2; injection h2 with h3 h4; subst h4; rfl)
  | (injection h with h2; subst h2; rename_i heq; exact (GB.run_instr_mmu_err _ _ _ _ heq))
  | (injection h)

/-- `GB::new` installs a non-booted MMU. -/
theorem GB.new_booted (rom_data : List Nat) (g : GB) (h : GB.new rom_data = .ok g) :
    g.mmu.booted = false := by
  unfold GB.new at h
  split at h
  · injection h
  · injection h with h2; subst h2; rfl

/-- `GB::load_rom` does not touch the boot flag. -/
theorem GB.load_rom_booted (g : GB) (rom_data : List Nat) (g' : GB)
    (h : g.load_rom rom_data = .ok g') : g'.mmu.booted = g.mmu.booted := by
  unfold GB.load_rom at h
  split at h
  · injection h
  · injection h with h2; subst h2; rfl

/-- C10: no operation of the source ever sets the boot flag, so in every
state reachable from harness construction via `cycle`, `run_instr`,
`load_rom`, reads, and direct writes, `booted` is still `false` — and
consequently every read in 0x0000-0x00FF returns the bios byte, so the
cartridge bank-0 bytes behind the overlay are never observable. -/
theorem c10_boot_flag_invariant (g : GB) (a : Nat) (h : Reachable g) (ha : a ≤ 0xff) :
    g.mmu.booted = false ∧ g.mmu.rb a = .ok (g.mmu.bios a) := by
  have hb : g.mmu.booted = false := by
    induction h with
    | new rom g hn => exact GB.new_booted rom g hn
    | cycle_ok g g' _ hc ih => rw [GB.cycle_mmu_ok g g' hc]; exact ih
    | cycle_err g p g' _ hc ih => rw [GB.cycle_mmu_err g p g' hc]; exact ih
    | run_ok g i g' _ hr ih => rw [GB.run_instr_mmu_ok g i g' hr]; exact ih
    | run_err g i p g' _ hr ih => rw [GB.run_instr_mmu_err g i p g' hr]; exact ih
    | load g rom g' _ hl ih => rw [GB.load_rom_booted g rom g' hl]; exact ih
    | write g addr val m' _ hw ih => exact (MMU.wb_booted g.mmu addr val m' hw).trans ih
  exact ⟨hb, MMU.rb_low g.mmu a hb ha⟩

/-- C10 witness: the freshly constructed harness, read at 0x50. -/
theorem c10_boot_flag_invariant_witness :
    gbInit.mmu.booted = false ∧ gbInit.mmu.rb 0x50 = .ok (gbInit.mmu.bios 0x50) :=
  c10_boot_flag_invariant gbInit 0x50
    (Reachable.new (List.replicate 16384 0) gbInit gb_new_replicate) (by decide)
